import Mathlib

/-!
# NSCC: a dispatch table over BSD / NonStop Guardian socket calls

Shallow embedding of `nscc.h` / `nscc.c`.

* Objects are sequences of bytes where the source treats them as such: a pointer
  is the list of bytes of its object representation (the source clears pointer
  members with `memset`), and a heap block is the list of its bytes.  `NULL` is
  the all-zero representation.
* Type sizes and the layout of `struct sockaddr_in` come from platform headers
  that the repository does not contain; they are the fields of `Platform`.
* The C library and the socket subsystem are an environment `Env`: it answers
  every platform call (given the calls made so far) and chooses what `malloc`
  returns.  Every platform call a wrapper makes is appended to `World.calls`
  together with the arguments it was given.
* A wrapper returns `none` when the C code has undefined behaviour on that
  input (access through a null or dead pointer, access past the end of a
  block, `free` of something that is not a live block).
* The table `intialize_tcp` allocates is read both as a typed value (`TCP`)
  and, for what the wrappers can do to it, from the bytes of its heap block
  (`readTable`, `callAt`); the connection is a typed object of its own.
* What the socket subsystem later stores through addresses it was handed (the
  peer address, received bytes) is outside the state, except for the
  `sockaddr_len` member of the connection, which the environment may rewrite.
* An argument is logged with the value of the argument expression; converting
  it to the parameter type is the business of the primitive's prototype, which
  lives in the platform headers.  Casts written in the source are modelled.
-/

namespace NSCC

/-! ## Bytes, pointers, platform -/

abbrev Bytes := List Nat

/-- Object representation of a pointer, in memory order. -/
abbrev Ptr := Bytes

/-- Test `p == 0`: every byte of the representation is zero. -/
def isNull (p : Ptr) : Bool := p.all (fun b => b == 0)

/-- Sizes and layout fixed by the platform headers and ABI. -/
structure Platform where
  /-- Value of `sizeof(int)`. -/
  sizeofInt : Nat
  /-- Value of `sizeof(T *)`. -/
  sizeofPtr : Nat
  /-- Value of `sizeof(TCP_CONNECTION_INFO)`. -/
  sizeofConnInfo : Nat
  /-- Value of `sizeof(struct sockaddr_in)`. -/
  sizeofSockaddrIn : Nat
  /-- Offset of `sin_family` (a `short`). -/
  offFamily : Nat
  /-- Offset of `sin_port` (an `unsigned short`). -/
  offPort : Nat
  /-- Offset of `sin_addr.s_addr` (four bytes). -/
  offAddr : Nat
  /-- Offset of the member the source calls `sa_data`. -/
  saDataOff : Nat
  /-- Value of `sizeof` of the member the source calls `sa_data`. -/
  saDataLen : Nat
  /-- Value of an `int` object given its bytes. -/
  intOfBytes : Bytes → Int
  /-- Bytes of a `short` object holding the given value. -/
  bytesOfShort : Int → Bytes

/-- The null pointer constant `0` converted to a pointer. -/
def nullPtr (P : Platform) : Ptr := List.replicate P.sizeofPtr 0

/-- Effect of `memset(&x, 0, n)` on the bytes of the object `x`: its first `n`
bytes become zero (on every supported ABI `n` is at most the size of `x`). -/
def zeroFirst (n : Nat) (bs : Bytes) : Bytes :=
  List.replicate (min n bs.length) 0 ++ bs.drop n

/-- Cut or zero-extend a byte sequence to exactly `n` bytes. -/
def fitTo (n : Nat) (bs : Bytes) : Bytes := (bs ++ List.replicate n 0).take n

/-- Conversion to `short` (16-bit two-complement wrap), for the casts
`( short )` and `( signed short )` in the source. -/
def toShort (x : Int) : Int := (x + 32768) % 65536 - 32768

/-- Result of `htons` as it lies in memory: the 16-bit value, high byte first. -/
def htons (port : Nat) : Bytes := [port / 256 % 256, port % 256]

/-- Little-endian value of a byte sequence. -/
def leValue : Bytes → Nat
  | [] => 0
  | b :: bs => b + 256 * leValue bs

/-- Little-endian two-complement `int` of 32 bits. -/
def leInt32 (bs : Bytes) : Int :=
  let n := leValue bs % 4294967296
  if n < 2147483648 then (n : Int) else (n : Int) - 4294967296

/-- Little-endian bytes of a `short`. -/
def leShort (x : Int) : Bytes :=
  let n := (x % 65536).toNat
  [n % 256, n / 256]

/-- An ILP32 platform (`int`, `long` and pointers of four bytes), the data
model of Guardian native C, with the classic `sockaddr_in` layout and
`sa_data` read as the eight bytes of padding. -/
def ilp32 : Platform :=
  { sizeofInt := 4, sizeofPtr := 4, sizeofConnInfo := 88, sizeofSockaddrIn := 16,
    offFamily := 0, offPort := 2, offAddr := 4, saDataOff := 8, saDataLen := 8,
    intOfBytes := leInt32, bytesOfShort := leShort }

/-- An LP64 platform (`int` of four bytes, `long` and pointers of eight). -/
def lp64 : Platform :=
  { sizeofInt := 4, sizeofPtr := 8, sizeofConnInfo := 136, sizeofSockaddrIn := 16,
    offFamily := 0, offPort := 2, offAddr := 4, saDataOff := 8, saDataLen := 8,
    intOfBytes := leInt32, bytesOfShort := leShort }

/-! ## Platform calls -/

/-- An address handed to a platform call. -/
inductive Addr
  /-- The pointer value itself. -/
  | val (p : Ptr)
  /-- Address of the member: `&connection->sockaddr`. -/
  | ofSockaddrMember
  /-- Address of the member: `&connection->sockaddr_len`. -/
  | ofSockaddrLenMember
  /-- Address of the wrapper's own parameter `tag` (`&tag`); the parameter
  holds the pointer the caller passed. -/
  | ofTagParam (holds : Ptr)
  deriving DecidableEq, Repr

/-- A call of a socket or platform primitive with its actual arguments. -/
inductive SysCall
  | socket_set_inet_name (name : Addr)
  | socket (address_family socket_type protocol : Int)
  | socket_nw (address_family socket_type protocol flags sync : Int)
  | bind (fd : Int) (address : Addr) (len : Int)
  | bind_nw (fd : Int) (address : Addr) (len : Int) (tag : Addr)
  | connect (fd : Int) (address : Addr) (len : Int)
  | connect_nw (fd : Int) (address : Addr) (len : Int) (tag : Addr)
  | listen (fd : Int) (queue_length : Int)
  | accept (fd : Int) (from_ptr : Addr) (from_len_ptr : Addr)
  | accept_nw (fd : Int) (from_ptr : Addr) (from_len_ptr : Addr) (tag : Addr)
  | accept_nw1 (fd : Int) (from_ptr : Addr) (from_len_ptr : Addr) (tag : Addr)
      (queue_length : Int)
  | accept_nw2 (fd : Int) (from_ptr : Addr) (tag : Addr)
  | accept_nw3 (fd : Int) (from_ptr : Addr) (me_ptr : Addr) (tag : Addr)
  | send (fd : Int) (buffer : Addr) (len : Int) (flags : Int)
  | send_nw (fd : Int) (buffer : Addr) (len : Int) (flags : Int) (tag : Addr)
  | recv (fd : Int) (buffer : Addr) (len : Int) (flags : Int)
  | recv_nw (fd : Int) (buffer : Addr) (len : Int) (flags : Int) (tag : Addr)
  | shutdown (fd : Int) (how : Int)
  | shutdown_nw (fd : Int) (how : Int) (tag : Addr)
  | FILE_CLOSE_ (filenum : Int)
  | getsockname (fd : Int) (address : Addr) (len_ptr : Addr)
  | getsockname_nw (fd : Int) (address : Addr) (len_ptr : Addr) (tag : Addr)
  deriving DecidableEq, Repr

/-! ## Heap and environment -/

/-- Live heap blocks: base pointer and contents. -/
abbrev Heap := List (Ptr × Bytes)

/-- Replace the contents of the block at `p`. -/
def Heap.store (h : Heap) (p : Ptr) (bs : Bytes) : Heap :=
  h.map (fun e => if e.1 == p then (p, bs) else e)

/-- Remove the block at `p`. -/
def Heap.release (h : Heap) (p : Ptr) : Heap :=
  h.filter (fun e => !(e.1 == p))

/-- Heap and the log of platform calls, oldest first. -/
structure World where
  heap : Heap
  calls : List SysCall
  deriving DecidableEq, Repr

/-- The environment of the program. -/
structure Env where
  /-- Value a platform call returns, given the calls made before it. -/
  ret : List SysCall → SysCall → Int
  /-- New value of `connection->sockaddr_len` after a call that was handed its
  address, given the old value. -/
  lenOut : List SysCall → SysCall → Int → Int
  /-- Pointer `malloc(n)` returns in the given heap (null on failure). -/
  mallocPtr : Heap → Nat → Ptr
  /-- Bytes found in the block `malloc(n)` returns: `malloc` does not
  initialise it. -/
  mallocJunk : Heap → Nat → Bytes
  /-- Result of `inet_addr` as it lies in memory (network byte order). -/
  inet_addr : Bytes → Bytes

/-- Call `malloc(n)`. -/
def malloc (env : Env) (w : World) (n : Nat) : Ptr × World :=
  let p := env.mallocPtr w.heap n
  if isNull p then (p, w)
  else (p, { w with heap := (p, fitTo n (env.mallocJunk w.heap n)) :: w.heap.release p })

/-- Call `free(p)` for a non-null `p`: undefined unless `p` is a live block. -/
def free (w : World) (p : Ptr) : Option World :=
  match w.heap.lookup p with
  | none => none
  | some _ => some { w with heap := w.heap.release p }

/-- Read of `*p` for `p : int *`. -/
def readInt (P : Platform) (w : World) (p : Ptr) : Option Int :=
  if isNull p then none
  else match w.heap.lookup p with
    | none => none
    | some bs =>
      if P.sizeofInt ≤ bs.length then some (P.intOfBytes (bs.take P.sizeofInt)) else none

/-- Store of `data` at offset `off` of the block `p` points to. -/
def writeAt (w : World) (p : Ptr) (off : Nat) (data : Bytes) : Option World :=
  if isNull p then none
  else match w.heap.lookup p with
    | none => none
    | some bs =>
      if off + data.length ≤ bs.length then
        some { w with heap :=
          w.heap.store p (bs.take off ++ data ++ bs.drop (off + data.length)) }
      else none

/-- Make a platform call: log it and obtain its return value. -/
def World.call (env : Env) (w : World) (c : SysCall) : Int × World :=
  (env.ret w.calls c, { w with calls := w.calls ++ [c] })

/-! ## Data model (`nscc.h`) -/

/-- The C struct `TIMEOUT_OPTS`. -/
structure TIMEOUT_OPTS where
  recv_to : Int
  send_to : Int
  socket_to : Int
  connect_to : Int
  bind_to : Int
  accept_to : Int
  variable_to : Int
  deriving DecidableEq, Repr

/-- The C struct `TCP_CONNECTION_INFO`. -/
structure TCP_CONNECTION_INFO where
  ipaddr : Bytes
  port : Nat
  process_name : Bytes
  sock : Ptr
  sockaddr_len : Int
  flags : Int
  queue_len : Int
  tag : Int
  sockaddr : Ptr
  sock_shutdown_how : Int
  timeout_opts : TIMEOUT_OPTS
  deriving DecidableEq, Repr

/-- The static functions of `nscc.c` whose addresses go into the table. -/
inductive FnId
  | Set_Inet_Name | Create_Socket | Get_Sock_NW | Set_Bind | Set_Bind_NW
  | Make_Connect | Make_Connect_NW | Set_Listen
  | New_Accept | New_Accept_NW | New_Accept_NW1 | New_Accept_NW2 | New_Accept_NW3
  | New_Send | New_Send_NW | New_Recv | New_Recv_NW
  | Shutdown_Sock | Shutdown_Sock_NW | Close_Sock
  | Get_Sock_Name | Get_Sock_Name_NW | Clean_Conn_Info | Tcp_Set_Options | Set_SockAddr
  deriving DecidableEq, Repr

/-- The C struct `TCP`: a function pointer is `none` when null and otherwise
names the function it points to. -/
structure TCP where
  tcp_connect : Ptr
  set_inet_name : Option FnId
  get_sock : Option FnId
  get_sock_nw : Option FnId
  set_bind : Option FnId
  set_bind_nw : Option FnId
  make_connect : Option FnId
  make_connect_nw : Option FnId
  set_listen : Option FnId
  new_accept : Option FnId
  new_accept_nw : Option FnId
  new_accept_nw1 : Option FnId
  new_accept_nw2 : Option FnId
  new_accept_nw3 : Option FnId
  new_send : Option FnId
  new_send_nw : Option FnId
  new_recv : Option FnId
  new_recv_nw : Option FnId
  shutdown_sock : Option FnId
  shutdown_sock_nw : Option FnId
  close_sock : Option FnId
  get_sock_name : Option FnId
  get_sock_name_nw : Option FnId
  clean_conn_info : Option FnId
  set_options : Option FnId
  set_sockaddr : Option FnId
  deriving DecidableEq, Repr

/-- Value of `sizeof(TCP)`: twenty-six pointer members. -/
def sizeofTCP (P : Platform) : Nat := 26 * P.sizeofPtr

/-- What a call of a wrapper hands back. -/
inductive Ret
  /-- The function has return type `void`. -/
  | void
  /-- A `return` statement gave this value. -/
  | value (v : Int)
  /-- Control reached the closing brace of an `int` function: no value. -/
  | indeterminate
  deriving DecidableEq, Repr

/-- State after a wrapper returned. -/
structure Outcome where
  ret : Ret
  conn : TCP_CONNECTION_INFO
  world : World
  deriving DecidableEq, Repr

/-! ## The wrappers (`nscc.c`) -/

/-- The C function `Set_Inet_Name`. -/
def Set_Inet_Name (env : Env) (process_name : Ptr)
    (c : TCP_CONNECTION_INFO) (w : World) : Option Outcome :=
  let r := w.call env (.socket_set_inet_name (.val process_name))
  some { ret := .void, conn := c, world := r.2 }

/-- The C function `Set_SockAddr`. -/
def Set_SockAddr (P : Platform) (env : Env) (address_family : Int)
    (c : TCP_CONNECTION_INFO) (w : World) : Option Outcome :=
  -- connection->sockaddr = malloc(sizeof(connection->sockaddr));
  let m := malloc env w P.sizeofPtr
  let c1 := { c with sockaddr := m.1 }
  -- memset(connection->sockaddr, 0, sizeof(*connection->sockaddr));
  (writeAt m.2 c1.sockaddr 0 (List.replicate P.sizeofSockaddrIn 0)).bind fun w2 =>
  -- memset(connection->sockaddr->sa_data, 0, sizeof(connection->sockaddr->sa_data));
  (writeAt w2 c1.sockaddr P.saDataOff (List.replicate P.saDataLen 0)).bind fun w3 =>
  -- connection->sockaddr->sin_family = address_family;
  (writeAt w3 c1.sockaddr P.offFamily (fitTo 2 (P.bytesOfShort address_family))).bind fun w4 =>
  -- connection->sockaddr->sin_port = htons(connection->port);
  (writeAt w4 c1.sockaddr P.offPort (htons c1.port)).bind fun w5 =>
  -- connection->sockaddr->sin_addr.s_addr = inet_addr(connection->ipaddr);
  (writeAt w5 c1.sockaddr P.offAddr (fitTo 4 (env.inet_addr c1.ipaddr))).bind fun w6 =>
  some { ret := .void, conn := c1, world := w6 }

/-- The C function `Create_Socket`. -/
def Create_Socket (P : Platform) (env : Env) (address_family socket_type protocol : Int)
    (c : TCP_CONNECTION_INFO) (w : World) : Option Outcome :=
  -- memset( &connection->sock, 0, sizeof ( *connection->sock ) );
  let c1 := { c with sock := zeroFirst P.sizeofInt c.sock }
  -- connection->sock = ( int * ) malloc ( sizeof ( int ) );
  let m := malloc env w P.sizeofInt
  let c2 := { c1 with sock := m.1 }
  -- socket_num = socket( address_family, socket_type, protocol );
  let r := m.2.call env (.socket address_family socket_type protocol)
  some { ret := .value r.1, conn := c2, world := r.2 }

/-- The C function `Get_Sock_NW`. -/
def Get_Sock_NW (env : Env) (address_family socket_type protocol sync : Int)
    (c : TCP_CONNECTION_INFO) (w : World) : Option Outcome :=
  let r := w.call env (.socket_nw address_family socket_type protocol c.flags sync)
  some { ret := .value r.1, conn := c, world := r.2 }

/-- The C function `Set_Bind`. -/
def Set_Bind (P : Platform) (env : Env)
    (c : TCP_CONNECTION_INFO) (w : World) : Option Outcome :=
  (readInt P w c.sock).bind fun fd =>
  let r := w.call env (.bind fd (.val c.sockaddr) c.sockaddr_len)
  some { ret := .value r.1, conn := c, world := r.2 }

/-- The C function `Set_Bind_NW`. -/
def Set_Bind_NW (P : Platform) (env : Env) (tag : Ptr)
    (c : TCP_CONNECTION_INFO) (w : World) : Option Outcome :=
  (readInt P w c.sock).bind fun fd =>
  let r := w.call env (.bind_nw fd (.val c.sockaddr) c.sockaddr_len (.ofTagParam tag))
  some { ret := .value r.1, conn := c, world := r.2 }

/-- The C function `Make_Connect`. -/
def Make_Connect (P : Platform) (env : Env)
    (c : TCP_CONNECTION_INFO) (w : World) : Option Outcome :=
  -- memset ( connection->sockaddr->sa_data, 0, sizeof ( connection->sockaddr->sa_data ) );
  (writeAt w c.sockaddr P.saDataOff (List.replicate P.saDataLen 0)).bind fun w1 =>
  -- status = connect ( *connection->sock, connection->sockaddr, sizeof ( *connection->sockaddr ) );
  (readInt P w1 c.sock).bind fun fd =>
  let r := w1.call env (.connect fd (.val c.sockaddr) P.sizeofSockaddrIn)
  some { ret := .value r.1, conn := c, world := r.2 }

/-- The C function `Make_Connect_NW`. -/
def Make_Connect_NW (P : Platform) (env : Env) (tag : Ptr)
    (c : TCP_CONNECTION_INFO) (w : World) : Option Outcome :=
  (writeAt w c.sockaddr P.saDataOff (List.replicate P.saDataLen 0)).bind fun w1 =>
  (readInt P w1 c.sock).bind fun fd =>
  let r := w1.call env (.connect_nw fd .ofSockaddrMember c.sockaddr_len (.ofTagParam tag))
  some { ret := .value r.1, conn := c, world := r.2 }

/-- The C function `Set_Listen`. -/
def Set_Listen (P : Platform) (env : Env)
    (c : TCP_CONNECTION_INFO) (w : World) : Option Outcome :=
  (readInt P w c.sock).bind fun fd =>
  let r := w.call env (.listen fd c.queue_len)
  some { ret := .value r.1, conn := c, world := r.2 }

/-- The C function `New_Accept`. -/
def New_Accept (P : Platform) (env : Env) (from_len_ptr : Ptr)
    (c : TCP_CONNECTION_INFO) (w : World) : Option Outcome :=
  (readInt P w c.sock).bind fun fd =>
  let r := w.call env (.accept fd (.val c.sockaddr) (.val from_len_ptr))
  some { ret := .value r.1, conn := c, world := r.2 }

/-- The C function `New_Accept_NW`. -/
def New_Accept_NW (P : Platform) (env : Env) (tag : Ptr)
    (c : TCP_CONNECTION_INFO) (w : World) : Option Outcome :=
  (readInt P w c.sock).bind fun fd =>
  let call := SysCall.accept_nw fd (.val c.sockaddr) .ofSockaddrLenMember (.ofTagParam tag)
  let r := w.call env call
  some { ret := .value r.1,
         conn := { c with sockaddr_len := env.lenOut w.calls call c.sockaddr_len },
         world := r.2 }

/-- The C function `New_Accept_NW1`. -/
def New_Accept_NW1 (P : Platform) (env : Env) (tag : Ptr)
    (c : TCP_CONNECTION_INFO) (w : World) : Option Outcome :=
  (readInt P w c.sock).bind fun fd =>
  let call := SysCall.accept_nw1 fd (.val c.sockaddr) .ofSockaddrLenMember (.ofTagParam tag)
    (toShort c.queue_len)
  let r := w.call env call
  some { ret := .value r.1,
         conn := { c with sockaddr_len := env.lenOut w.calls call c.sockaddr_len },
         world := r.2 }

/-- The C function `New_Accept_NW2`. -/
def New_Accept_NW2 (P : Platform) (env : Env) (tag : Ptr)
    (c : TCP_CONNECTION_INFO) (w : World) : Option Outcome :=
  (readInt P w c.sock).bind fun fd =>
  let r := w.call env (.accept_nw2 fd (.val c.sockaddr) (.ofTagParam tag))
  some { ret := .value r.1, conn := c, world := r.2 }

/-- The C function `New_Accept_NW3`. -/
def New_Accept_NW3 (P : Platform) (env : Env) (me_ptr : Ptr) (tag : Ptr)
    (c : TCP_CONNECTION_INFO) (w : World) : Option Outcome :=
  (readInt P w c.sock).bind fun fd =>
  let r := w.call env (.accept_nw3 fd (.val c.sockaddr) (.val me_ptr) (.ofTagParam tag))
  some { ret := .value r.1, conn := c, world := r.2 }

/-- The C function `New_Send`. -/
def New_Send (P : Platform) (env : Env) (buffer_ptr : Ptr) (buffer_length : Int)
    (c : TCP_CONNECTION_INFO) (w : World) : Option Outcome :=
  (readInt P w c.sock).bind fun fd =>
  let r := w.call env (.send fd (.val buffer_ptr) buffer_length c.flags)
  some { ret := .value r.1, conn := c, world := r.2 }

/-- The C function `New_Send_NW`. -/
def New_Send_NW (P : Platform) (env : Env) (buffer_ptr : Ptr) (buffer_length : Int)
    (tag : Ptr) (c : TCP_CONNECTION_INFO) (w : World) : Option Outcome :=
  (readInt P w c.sock).bind fun fd =>
  let r := w.call env (.send_nw fd (.val buffer_ptr) buffer_length c.flags (.ofTagParam tag))
  some { ret := .value r.1, conn := c, world := r.2 }

/-- The C function `New_Recv`; the parameter `nrcvd` is overwritten before it
is read, so its incoming value plays no part. -/
def New_Recv (P : Platform) (env : Env) (buffer_ptr : Ptr) (buff_length : Int)
    (_nrcvd : Int) (c : TCP_CONNECTION_INFO) (w : World) : Option Outcome :=
  (readInt P w c.sock).bind fun fd =>
  let r := w.call env (.recv fd (.val buffer_ptr) buff_length c.flags)
  -- if ( nrcvd < 0 ) return -1;   and nothing after it
  some { ret := if r.1 < 0 then .value (-1) else .indeterminate, conn := c, world := r.2 }

/-- The C function `New_Recv_NW`. -/
def New_Recv_NW (P : Platform) (env : Env) (buffer_ptr : Ptr) (length : Int)
    (tag : Ptr) (_nrcvd : Int) (c : TCP_CONNECTION_INFO) (w : World) : Option Outcome :=
  (readInt P w c.sock).bind fun fd =>
  let r := w.call env (.recv_nw fd (.val buffer_ptr) length c.flags (.ofTagParam tag))
  some { ret := if r.1 < 0 then .value (-1) else .indeterminate, conn := c, world := r.2 }

/-- The C function `Shutdown_Sock`. -/
def Shutdown_Sock (P : Platform) (env : Env) (how : Int)
    (c : TCP_CONNECTION_INFO) (w : World) : Option Outcome :=
  (readInt P w c.sock).bind fun fd =>
  let r := w.call env (.shutdown fd how)
  some { ret := .value r.1, conn := c, world := r.2 }

/-- The C function `Shutdown_Sock_NW`. -/
def Shutdown_Sock_NW (P : Platform) (env : Env) (how : Int) (tag : Ptr)
    (c : TCP_CONNECTION_INFO) (w : World) : Option Outcome :=
  (readInt P w c.sock).bind fun fd =>
  let r := w.call env (.shutdown_nw fd how (.ofTagParam tag))
  some { ret := .value r.1, conn := c, world := r.2 }

/-- The C function `Close_Sock`. -/
def Close_Sock (P : Platform) (env : Env)
    (c : TCP_CONNECTION_INFO) (w : World) : Option Outcome :=
  if isNull c.sock then
    -- *connection->sock = 0;
    (writeAt w c.sock 0 (List.replicate P.sizeofInt 0)).bind fun w1 =>
    -- memset ( &connection->sock, 0, sizeof ( *connection->sock ) ); status = 0;
    some { ret := .value 0, conn := { c with sock := zeroFirst P.sizeofInt c.sock }, world := w1 }
  else
    -- status = FILE_CLOSE_ ( ( signed short ) *connection->sock );
    (readInt P w c.sock).bind fun fd =>
    let r := w.call env (.FILE_CLOSE_ (toShort fd))
    -- memset ( &connection->sock, 0, sizeof ( *connection->sock ) );
    some { ret := .value r.1, conn := { c with sock := zeroFirst P.sizeofInt c.sock },
           world := r.2 }

/-- The C function `Get_Sock_Name`. -/
def Get_Sock_Name (P : Platform) (env : Env)
    (c : TCP_CONNECTION_INFO) (w : World) : Option Outcome :=
  (readInt P w c.sock).bind fun fd =>
  let call := SysCall.getsockname fd (.val c.sockaddr) .ofSockaddrLenMember
  let r := w.call env call
  some { ret := .value r.1,
         conn := { c with sockaddr_len := env.lenOut w.calls call c.sockaddr_len },
         world := r.2 }

/-- The C function `Get_Sock_Name_NW`. -/
def Get_Sock_Name_NW (P : Platform) (env : Env) (tag : Ptr)
    (c : TCP_CONNECTION_INFO) (w : World) : Option Outcome :=
  (readInt P w c.sock).bind fun fd =>
  let call := SysCall.getsockname_nw fd (.val c.sockaddr) .ofSockaddrLenMember (.ofTagParam tag)
  let r := w.call env call
  some { ret := .value r.1,
         conn := { c with sockaddr_len := env.lenOut w.calls call c.sockaddr_len },
         world := r.2 }

/-- The C function `Clean_Conn_Info`. -/
def Clean_Conn_Info (P : Platform)
    (c : TCP_CONNECTION_INFO) (w : World) : Option Outcome :=
  -- if (connection->sockaddr != 0) { free(connection->sockaddr); connection->sockaddr = 0; }
  (if isNull c.sockaddr then some (c, w)
   else (free w c.sockaddr).map fun w1 => ({ c with sockaddr := nullPtr P }, w1)).bind fun s1 =>
  -- if (connection->sock != 0) { free(connection->sock); connection->sock = 0; }
  (if isNull s1.1.sock then some s1
   else (free s1.2 s1.1.sock).map fun w2 => ({ s1.1 with sock := nullPtr P }, w2)).bind fun s2 =>
  some { ret := .void,
         conn := { s2.1 with queue_len := 0, flags := 0, sockaddr_len := 0, tag := 0 },
         world := s2.2 }

/-- The C function `Tcp_Set_Options`. -/
def Tcp_Set_Options (flags queue_length sockaddr_len : Int)
    (c : TCP_CONNECTION_INFO) (w : World) : Option Outcome :=
  some { ret := .void,
         conn := { c with flags := flags, queue_len := queue_length,
                          sockaddr_len := sockaddr_len },
         world := w }

/-! ## The dispatch table -/

/-- The function-pointer members of `TCP`, in declaration order. -/
inductive Field
  | set_inet_name | get_sock | get_sock_nw | set_bind | set_bind_nw
  | make_connect | make_connect_nw | set_listen
  | new_accept | new_accept_nw | new_accept_nw1 | new_accept_nw2 | new_accept_nw3
  | new_send | new_send_nw | new_recv | new_recv_nw
  | shutdown_sock | shutdown_sock_nw | close_sock
  | get_sock_name | get_sock_name_nw | clean_conn_info | set_options | set_sockaddr
  deriving DecidableEq, Repr

/-- All function-pointer members of `TCP`. -/
def Field.all : List Field :=
  [.set_inet_name, .get_sock, .get_sock_nw, .set_bind, .set_bind_nw,
   .make_connect, .make_connect_nw, .set_listen,
   .new_accept, .new_accept_nw, .new_accept_nw1, .new_accept_nw2, .new_accept_nw3,
   .new_send, .new_send_nw, .new_recv, .new_recv_nw,
   .shutdown_sock, .shutdown_sock_nw, .close_sock,
   .get_sock_name, .get_sock_name_nw, .clean_conn_info, .set_options, .set_sockaddr]

/-- Read the member `fld` of a table. -/
def TCP.get (t : TCP) : Field → Option FnId
  | .set_inet_name => t.set_inet_name
  | .get_sock => t.get_sock
  | .get_sock_nw => t.get_sock_nw
  | .set_bind => t.set_bind
  | .set_bind_nw => t.set_bind_nw
  | .make_connect => t.make_connect
  | .make_connect_nw => t.make_connect_nw
  | .set_listen => t.set_listen
  | .new_accept => t.new_accept
  | .new_accept_nw => t.new_accept_nw
  | .new_accept_nw1 => t.new_accept_nw1
  | .new_accept_nw2 => t.new_accept_nw2
  | .new_accept_nw3 => t.new_accept_nw3
  | .new_send => t.new_send
  | .new_send_nw => t.new_send_nw
  | .new_recv => t.new_recv
  | .new_recv_nw => t.new_recv_nw
  | .shutdown_sock => t.shutdown_sock
  | .shutdown_sock_nw => t.shutdown_sock_nw
  | .close_sock => t.close_sock
  | .get_sock_name => t.get_sock_name
  | .get_sock_name_nw => t.get_sock_name_nw
  | .clean_conn_info => t.clean_conn_info
  | .set_options => t.set_options
  | .set_sockaddr => t.set_sockaddr

/-- What `intialize_tcp` hands back: the pointer `tcp`, the table it points to
and the world after the two allocations. -/
structure Initialised where
  tcp : Ptr
  table : TCP
  world : World
  deriving DecidableEq, Repr

/-- The C function `intialize_tcp`. -/
def intialize_tcp (P : Platform) (env : Env) (w : World) : Option Initialised :=
  -- tcp = ( TCP * ) malloc ( sizeof ( TCP ) );
  let m := malloc env w (sizeofTCP P)
  -- tcp->set_inet_name = Set_Inet_Name;  stores through tcp
  if isNull m.1 then none
  else
    -- tcp->tcp_connect = ( TCP_CONNECTION_INFO * ) malloc ( sizeof ( TCP_CONNECTION_INFO ) );
    let m2 := malloc env m.2 P.sizeofConnInfo
    some { tcp := m.1, world := m2.2,
           table :=
            { set_inet_name := some .Set_Inet_Name
              get_sock := some .Create_Socket
              get_sock_nw := some .Get_Sock_NW
              set_bind := some .Set_Bind
              set_bind_nw := some .Set_Bind_NW
              make_connect := some .Make_Connect
              make_connect_nw := some .Make_Connect_NW
              set_listen := some .Set_Listen
              new_accept := some .New_Accept
              new_accept_nw := some .New_Accept_NW
              new_accept_nw1 := some .New_Accept_NW1
              new_accept_nw2 := some .New_Accept_NW2
              new_accept_nw3 := some .New_Accept_NW3
              new_send := some .New_Send
              new_send_nw := some .New_Send_NW
              new_recv := some .New_Recv
              new_recv_nw := some .New_Recv_NW
              shutdown_sock := some .Shutdown_Sock
              shutdown_sock_nw := some .Shutdown_Sock_NW
              close_sock := some .Close_Sock
              get_sock_name := some .Get_Sock_Name
              get_sock_name_nw := some .Get_Sock_Name_NW
              clean_conn_info := some .Clean_Conn_Info
              set_options := some .Tcp_Set_Options
              set_sockaddr := some .Set_SockAddr
              tcp_connect := m2.1 } }

/-- Actual arguments of a call through the table, by parameter name; a
wrapper takes the ones its parameter list has. -/
structure Args where
  process_name : Ptr
  address_family : Int
  socket_type : Int
  protocol : Int
  sync : Int
  tag : Ptr
  from_len_ptr : Ptr
  me_ptr : Ptr
  buffer_ptr : Ptr
  buffer_length : Int
  nrcvd : Int
  how : Int
  flags : Int
  queue_length : Int
  sockaddr_len : Int
  deriving DecidableEq, Repr

/-- Call the function a pointer names. -/
def runFn (P : Platform) (env : Env) (a : Args) (c : TCP_CONNECTION_INFO) (w : World) :
    FnId → Option Outcome
  | .Set_Inet_Name => Set_Inet_Name env a.process_name c w
  | .Create_Socket => Create_Socket P env a.address_family a.socket_type a.protocol c w
  | .Get_Sock_NW => Get_Sock_NW env a.address_family a.socket_type a.protocol a.sync c w
  | .Set_Bind => Set_Bind P env c w
  | .Set_Bind_NW => Set_Bind_NW P env a.tag c w
  | .Make_Connect => Make_Connect P env c w
  | .Make_Connect_NW => Make_Connect_NW P env a.tag c w
  | .Set_Listen => Set_Listen P env c w
  | .New_Accept => New_Accept P env a.from_len_ptr c w
  | .New_Accept_NW => New_Accept_NW P env a.tag c w
  | .New_Accept_NW1 => New_Accept_NW1 P env a.tag c w
  | .New_Accept_NW2 => New_Accept_NW2 P env a.tag c w
  | .New_Accept_NW3 => New_Accept_NW3 P env a.me_ptr a.tag c w
  | .New_Send => New_Send P env a.buffer_ptr a.buffer_length c w
  | .New_Send_NW => New_Send_NW P env a.buffer_ptr a.buffer_length a.tag c w
  | .New_Recv => New_Recv P env a.buffer_ptr a.buffer_length a.nrcvd c w
  | .New_Recv_NW => New_Recv_NW P env a.buffer_ptr a.buffer_length a.tag a.nrcvd c w
  | .Shutdown_Sock => Shutdown_Sock P env a.how c w
  | .Shutdown_Sock_NW => Shutdown_Sock_NW P env a.how a.tag c w
  | .Close_Sock => Close_Sock P env c w
  | .Get_Sock_Name => Get_Sock_Name P env c w
  | .Get_Sock_Name_NW => Get_Sock_Name_NW P env a.tag c w
  | .Clean_Conn_Info => Clean_Conn_Info P c w
  | .Tcp_Set_Options => Tcp_Set_Options a.flags a.queue_length a.sockaddr_len c w
  | .Set_SockAddr => Set_SockAddr P env a.address_family c w

/-- A program state with the table as a typed value: the table, the connection
object the wrappers are handed, and the world.  For the table as a block of
the heap see `readTable` and `callAt`. -/
structure Machine where
  tcp : TCP
  conn : TCP_CONNECTION_INFO
  world : World
  deriving DecidableEq, Repr

/-- The call `tcp->fld ( tcp->tcp_connect, ... )`: fetch the pointer from the
table and call what it points to (a call through a null pointer is undefined). -/
def callThrough (P : Platform) (env : Env) (fld : Field) (a : Args) (m : Machine) :
    Option (Ret × Machine) :=
  match m.tcp.get fld with
  | none => none
  | some f =>
    (runFn P env a m.conn m.world f).map fun o =>
      (o.ret, { m with conn := o.conn, world := o.world })

/-! ## The table as a heap block

`intialize_tcp` obtains the table from `malloc`, so the table is a block of the
same heap the wrappers write to and free from.  Here its members are read from
the bytes of that block. -/

/-- All wrappers. -/
def FnId.all : List FnId :=
  [.Set_Inet_Name, .Create_Socket, .Get_Sock_NW, .Set_Bind, .Set_Bind_NW,
   .Make_Connect, .Make_Connect_NW, .Set_Listen,
   .New_Accept, .New_Accept_NW, .New_Accept_NW1, .New_Accept_NW2, .New_Accept_NW3,
   .New_Send, .New_Send_NW, .New_Recv, .New_Recv_NW,
   .Shutdown_Sock, .Shutdown_Sock_NW, .Close_Sock,
   .Get_Sock_Name, .Get_Sock_Name_NW, .Clean_Conn_Info, .Tcp_Set_Options, .Set_SockAddr]

/-- The nine socket operations the specification lists. -/
inductive SockOp
  | create | bind | connect | listen | accept | send | receive | shutdown | close
  deriving DecidableEq, Repr

/-- Operation a platform primitive performs, if it is one of the nine. -/
def SysCall.operation : SysCall → Option SockOp
  | .socket .. => some .create
  | .socket_nw .. => some .create
  | .bind .. => some .bind
  | .bind_nw .. => some .bind
  | .connect .. => some .connect
  | .connect_nw .. => some .connect
  | .listen .. => some .listen
  | .accept .. => some .accept
  | .accept_nw .. => some .accept
  | .accept_nw1 .. => some .accept
  | .accept_nw2 .. => some .accept
  | .accept_nw3 .. => some .accept
  | .send .. => some .send
  | .send_nw .. => some .send
  | .recv .. => some .receive
  | .recv_nw .. => some .receive
  | .shutdown .. => some .shutdown
  | .shutdown_nw .. => some .shutdown
  | .FILE_CLOSE_ .. => some .close
  | .socket_set_inet_name .. => none
  | .getsockname .. => none
  | .getsockname_nw .. => none

/-- Whether a platform primitive is one of the NOWAIT (`_nw`) family. -/
def SysCall.nowait : SysCall → Bool
  | .socket_nw .. => true
  | .bind_nw .. => true
  | .connect_nw .. => true
  | .accept_nw .. => true
  | .accept_nw1 .. => true
  | .accept_nw2 .. => true
  | .accept_nw3 .. => true
  | .send_nw .. => true
  | .recv_nw .. => true
  | .shutdown_nw .. => true
  | .getsockname_nw .. => true
  | _ => false

/-- Operation whose primitive the wrapper calls (see `runFn_calls_classified`). -/
def FnId.operation : FnId → Option SockOp
  | .Create_Socket => some .create
  | .Get_Sock_NW => some .create
  | .Set_Bind => some .bind
  | .Set_Bind_NW => some .bind
  | .Make_Connect => some .connect
  | .Make_Connect_NW => some .connect
  | .Set_Listen => some .listen
  | .New_Accept => some .accept
  | .New_Accept_NW => some .accept
  | .New_Accept_NW1 => some .accept
  | .New_Accept_NW2 => some .accept
  | .New_Accept_NW3 => some .accept
  | .New_Send => some .send
  | .New_Send_NW => some .send
  | .New_Recv => some .receive
  | .New_Recv_NW => some .receive
  | .Shutdown_Sock => some .shutdown
  | .Shutdown_Sock_NW => some .shutdown
  | .Close_Sock => some .close
  | _ => none

/-- Whether the primitive the wrapper calls is a NOWAIT one. -/
def FnId.nowait : FnId → Bool
  | .Get_Sock_NW => true
  | .Set_Bind_NW => true
  | .Make_Connect_NW => true
  | .New_Accept_NW => true
  | .New_Accept_NW1 => true
  | .New_Accept_NW2 => true
  | .New_Accept_NW3 => true
  | .New_Send_NW => true
  | .New_Recv_NW => true
  | .Shutdown_Sock_NW => true
  | .Get_Sock_Name_NW => true
  | _ => false

/-- The table has a member bound to a wrapper for operation `op` of the given
kind (`nw = true`: NOWAIT, `nw = false`: blocking). -/
def TCP.hasMember (t : TCP) (op : SockOp) (nw : Bool) : Bool :=
  Field.all.any fun fld =>
    match t.get fld with
    | some f => f.operation == some op && f.nowait == nw
    | none => false

/-- All nine operations. -/
def SockOp.all : List SockOp :=
  [.create, .bind, .connect, .listen, .accept, .send, .receive, .shutdown, .close]

/-- Binding of members to wrappers as the specification words it. -/
def specBinding : Field → FnId
  | .get_sock => .Create_Socket
  | .get_sock_nw => .Get_Sock_NW
  | .set_bind => .Set_Bind
  | .set_bind_nw => .Set_Bind_NW
  | .make_connect => .Make_Connect
  | .make_connect_nw => .Make_Connect_NW
  | .set_listen => .Set_Listen
  | .new_accept => .New_Accept
  | .new_accept_nw => .New_Accept_NW
  | .new_accept_nw1 => .New_Accept_NW1
  | .new_accept_nw2 => .New_Accept_NW2
  | .new_accept_nw3 => .New_Accept_NW3
  | .new_send => .New_Send
  | .new_send_nw => .New_Send_NW
  | .new_recv => .New_Recv
  | .new_recv_nw => .New_Recv_NW
  | .shutdown_sock => .Shutdown_Sock
  | .shutdown_sock_nw => .Shutdown_Sock_NW
  | .close_sock => .Close_Sock
  | .get_sock_name => .Get_Sock_Name
  | .get_sock_name_nw => .Get_Sock_Name_NW
  | .clean_conn_info => .Clean_Conn_Info
  | .set_options => .Tcp_Set_Options
  | .set_sockaddr => .Set_SockAddr
  | .set_inet_name => .Set_Inet_Name

/-- Whether `p` is the base of a live heap block. -/
def live (w : World) (p : Ptr) : Bool := (w.heap.lookup p).isSome

/-! ## How a wrapper forwards -/

/-- Number of platform primitive calls in the body of a wrapper, on a path
that reaches its end. -/
def FnId.callCount : FnId → Nat
  | .Clean_Conn_Info => 0
  | .Tcp_Set_Options => 0
  | .Set_SockAddr => 0
  | _ => 1

/-- Wrappers whose `return` statement hands back the value their primitive
returned. -/
def FnId.returnsResult : FnId → Bool
  | .Set_Inet_Name => false
  | .New_Recv => false
  | .New_Recv_NW => false
  | .Clean_Conn_Info => false
  | .Tcp_Set_Options => false
  | .Set_SockAddr => false
  | _ => true

/-- Wrappers declared `void`. -/
def FnId.isVoid : FnId → Bool
  | .Set_Inet_Name => true
  | .Clean_Conn_Info => true
  | .Tcp_Set_Options => true
  | .Set_SockAddr => true
  | _ => false

/-- The memory accesses in the body of the wrapper are defined in this state:
`*connection->sock` can be read where the body reads it, the `sa_data` bytes
can be cleared where it clears them, both pointers can be freed where it frees
them.  `Set_SockAddr` is not covered. -/
def bodyDefined (P : Platform) (c : TCP_CONNECTION_INFO) (w : World) : FnId → Bool
  | .Set_Inet_Name => true
  | .Create_Socket => true
  | .Get_Sock_NW => true
  | .Tcp_Set_Options => true
  | .Set_SockAddr => false
  | .Make_Connect =>
    match writeAt w c.sockaddr P.saDataOff (List.replicate P.saDataLen 0) with
    | some w1 => (readInt P w1 c.sock).isSome
    | none => false
  | .Make_Connect_NW =>
    match writeAt w c.sockaddr P.saDataOff (List.replicate P.saDataLen 0) with
    | some w1 => (readInt P w1 c.sock).isSome
    | none => false
  | .Clean_Conn_Info =>
    (isNull c.sockaddr || live w c.sockaddr) &&
      (isNull c.sock || (live w c.sock && (isNull c.sockaddr || !(c.sock == c.sockaddr))))
  | _ => (readInt P w c.sock).isSome

/-- The tag argument of a NOWAIT primitive. -/
def SysCall.tag : SysCall → Option Addr
  | .bind_nw _ _ _ tag => some tag
  | .connect_nw _ _ _ tag => some tag
  | .accept_nw _ _ _ tag => some tag
  | .accept_nw1 _ _ _ tag _ => some tag
  | .accept_nw2 _ _ tag => some tag
  | .accept_nw3 _ _ _ tag => some tag
  | .send_nw _ _ _ _ tag => some tag
  | .recv_nw _ _ _ _ tag => some tag
  | .shutdown_nw _ _ tag => some tag
  | .getsockname_nw _ _ _ tag => some tag
  | _ => none

/-- Wrappers with a `signed long *tag` parameter. -/
def FnId.takesTag : FnId → Bool
  | .Set_Bind_NW => true
  | .Make_Connect_NW => true
  | .New_Accept_NW => true
  | .New_Accept_NW1 => true
  | .New_Accept_NW2 => true
  | .New_Accept_NW3 => true
  | .New_Send_NW => true
  | .New_Recv_NW => true
  | .Shutdown_Sock_NW => true
  | .Get_Sock_Name_NW => true
  | _ => false

/-! ## Sample inputs -/

/-- A sample environment for four-byte pointers: `socket` answers 3, every
other primitive 0; `malloc` hands out a fresh address and the block it returns
holds the bytes 7 0 0 0. -/
def sampleEnv : Env :=
  { ret := fun _ c => match c with
      | .socket .. => 3
      | _ => 0
    lenOut := fun _ _ n => n
    mallocPtr := fun h _ => [16 * (h.length + 1), 0, 0, 1]
    mallocJunk := fun _ _ => [7, 0, 0, 0]
    inet_addr := fun _ => [10, 0, 0, 1] }

/-- The same environment for eight-byte pointers. -/
def sampleEnv64 : Env :=
  { sampleEnv with mallocPtr := fun h _ => [16 * (h.length + 1), 0, 0, 0, 1, 0, 0, 0] }

/-- A connection to 10.0.0.1:8080 with the given two pointers. -/
def sampleConn (sock sockaddr : Ptr) : TCP_CONNECTION_INFO :=
  { ipaddr := [49, 48, 46, 48, 46, 48, 46, 49, 0, 0, 0, 0, 0, 0, 0, 0, 0, 0, 0, 0]
    port := 8080
    process_name := [36, 90, 66, 50, 55, 68, 0, 0, 0]
    sock := sock
    sockaddr_len := 16
    flags := 0
    queue_len := 5
    tag := 1
    sockaddr := sockaddr
    sock_shutdown_how := 2
    timeout_opts :=
      { recv_to := 100, send_to := 100, socket_to := 100, connect_to := 100,
        bind_to := 100, accept_to := 100, variable_to := 100 } }

/-- The world before anything was allocated or called. -/
def emptyWorld : World := { heap := [], calls := [] }

/-- Sample arguments. -/
def sampleArgs : Args :=
  { process_name := [0, 1, 0, 1], address_family := 2, socket_type := 1, protocol := 0,
    sync := 0, tag := [0, 2, 0, 1], from_len_ptr := [0, 3, 0, 1], me_ptr := [0, 4, 0, 1],
    buffer_ptr := [0, 5, 0, 1], buffer_length := 64, nrcvd := 0, how := 2, flags := 0,
    queue_length := 5, sockaddr_len := 16 }

/-- A world with an `int` block holding 5 and a sixteen-byte address block. -/
def sampleWorld : World :=
  { heap := [([16, 0, 0, 1], [5, 0, 0, 0]), ([32, 0, 0, 1], List.replicate 16 0)], calls := [] }

/-- The table `intialize_tcp` builds, with a connection whose `sock` and
`sockaddr` point at the two blocks of `sampleWorld`. -/
def sampleMachine : Option Machine :=
  (intialize_tcp ilp32 sampleEnv emptyWorld).map fun r =>
    { tcp := r.table, conn := sampleConn [16, 0, 0, 1] [32, 0, 0, 1], world := sampleWorld }

theorem malloc_calls (env : Env) (w : World) (n : Nat) : (malloc env w n).2.calls = w.calls := by
  unfold malloc
  by_cases h : isNull (env.mallocPtr w.heap n) = true <;> simp [h]

theorem writeAt_calls {w w1 : World} {p : Ptr} {off : Nat} {d : Bytes}
    (h : writeAt w p off d = some w1) : w1.calls = w.calls := by
  unfold writeAt at h
  split at h
  · cases h
  · split at h
    · cases h
    · split at h
      · cases h; rfl
      · cases h

theorem free_calls {w w1 : World} {p : Ptr} (h : free w p = some w1) : w1.calls = w.calls := by
  unfold free at h
  split at h
  · cases h
  · cases h; rfl

theorem fitTo_length (n : Nat) (bs : Bytes) : (fitTo n bs).length = n := by
  simp [fitTo]

theorem isNull_nullPtr (P : Platform) : isNull (nullPtr P) = true := by
  simp [isNull, nullPtr]

theorem lookup_release_ne (h : Heap) {p q : Ptr} (hne : q ≠ p) :
    (h.release p).lookup q = h.lookup q := by
  induction h with
  | nil => rfl
  | cons e t ih =>
    obtain ⟨k, v⟩ := e
    by_cases hk : k = p
    · subst hk
      have hq : (q == k) = false := by simpa using hne
      simp only [Heap.release, List.filter_cons, beq_self_eq_true, Bool.not_true,
        Bool.false_eq_true, if_false, List.lookup, hq]
      exact ih
    · have hkp : (k == p) = false := by simpa using hk
      simp only [Heap.release, List.filter_cons, hkp, Bool.not_false, if_true, List.lookup]
      cases hqk : (q == k)
      · exact ih
      · rfl

/-- Calls a wrapper adds to the log: all are for the operation, and of the
kind, that `FnId.operation` and `FnId.nowait` record for it, and a wrapper
with an operation adds one call. -/
theorem runFn_calls_classified (P : Platform) (env : Env) (a : Args) (c : TCP_CONNECTION_INFO)
    (w : World) (f : FnId) (o : Outcome) (h : runFn P env a c w f = some o) :
    ∃ new : List SysCall, o.world.calls = w.calls ++ new ∧
      (∀ call ∈ new, call.operation = f.operation ∧ call.nowait = f.nowait) ∧
      (f.operation ≠ none → new.length = 1) := by
  cases f
  case Set_SockAddr =>
    simp only [runFn, Set_SockAddr, Option.bind_eq_some, Option.some.injEq] at h
    obtain ⟨w2, h2, w3, h3, w4, h4, w5, h5, w6, h6, rfl⟩ := h
    refine ⟨[], ?_, by simp, by simp [FnId.operation]⟩
    simp [writeAt_calls h6, writeAt_calls h5, writeAt_calls h4, writeAt_calls h3,
      writeAt_calls h2, malloc_calls]
  case Clean_Conn_Info =>
    simp only [runFn, Clean_Conn_Info, Option.bind_eq_some, Option.some.injEq] at h
    obtain ⟨s1, h1, s2, h2, rfl⟩ := h
    refine ⟨[], ?_, by simp, by simp [FnId.operation]⟩
    have e1 : s1.2.calls = w.calls := by
      split at h1
      · cases h1; rfl
      · simp only [Option.map_eq_some'] at h1
        obtain ⟨w1, hw1, rfl⟩ := h1
        exact free_calls hw1
    have e2 : s2.2.calls = s1.2.calls := by
      split at h2
      · cases h2; rfl
      · simp only [Option.map_eq_some'] at h2
        obtain ⟨w1, hw1, rfl⟩ := h2
        exact free_calls hw1
    simp [e1, e2]
  case Close_Sock =>
    simp only [runFn, Close_Sock] at h
    split at h
    · rename_i hn
      simp [writeAt, hn] at h
    · simp only [Option.bind_eq_some, Option.some.injEq] at h
      obtain ⟨fd, -, rfl⟩ := h
      exact ⟨[_], rfl, by simp [SysCall.operation, SysCall.nowait, FnId.operation, FnId.nowait],
        by simp⟩
  case Create_Socket =>
    simp only [runFn, Create_Socket, Option.some.injEq] at h
    subst h
    refine ⟨[.socket a.address_family a.socket_type a.protocol], ?_,
      by simp [SysCall.operation, SysCall.nowait, FnId.operation, FnId.nowait], by simp⟩
    simp [World.call, malloc_calls]
  case Make_Connect =>
    simp only [runFn, Make_Connect, Option.bind_eq_some, Option.some.injEq] at h
    obtain ⟨w1, h1, fd, -, rfl⟩ := h
    refine ⟨[.connect fd (.val c.sockaddr) P.sizeofSockaddrIn], ?_,
      by simp [SysCall.operation, SysCall.nowait, FnId.operation, FnId.nowait], by simp⟩
    simp [World.call, writeAt_calls h1]
  case Make_Connect_NW =>
    simp only [runFn, Make_Connect_NW, Option.bind_eq_some, Option.some.injEq] at h
    obtain ⟨w1, h1, fd, -, rfl⟩ := h
    refine ⟨[.connect_nw fd .ofSockaddrMember c.sockaddr_len (.ofTagParam a.tag)], ?_,
      by simp [SysCall.operation, SysCall.nowait, FnId.operation, FnId.nowait], by simp⟩
    simp [World.call, writeAt_calls h1]
  case Tcp_Set_Options =>
    simp only [runFn, Tcp_Set_Options, Option.some.injEq] at h
    subst h
    exact ⟨[], by simp, by simp, by simp [FnId.operation]⟩
  case Set_Inet_Name =>
    simp only [runFn, Set_Inet_Name, Option.some.injEq] at h
    subst h
    exact ⟨[_], rfl, by simp [SysCall.operation, SysCall.nowait, FnId.operation, FnId.nowait],
      by simp⟩
  case Get_Sock_NW =>
    simp only [runFn, Get_Sock_NW, Option.some.injEq] at h
    subst h
    exact ⟨[_], rfl, by simp [SysCall.operation, SysCall.nowait, FnId.operation, FnId.nowait],
      by simp⟩
  all_goals
    simp only [runFn, Set_Bind, Set_Bind_NW, Set_Listen, New_Accept, New_Accept_NW,
      New_Accept_NW1, New_Accept_NW2, New_Accept_NW3, New_Send, New_Send_NW, New_Recv,
      New_Recv_NW, Shutdown_Sock, Shutdown_Sock_NW, Get_Sock_Name, Get_Sock_Name_NW,
      Option.bind_eq_some, Option.some.injEq] at h
    obtain ⟨fd, -, rfl⟩ := h
    exact ⟨[_], rfl, by simp [SysCall.operation, SysCall.nowait, FnId.operation, FnId.nowait],
      by simp⟩

/-! ## Initialisation of the table (C1, C2) -/

/-- C1: when both allocations in `intialize_tcp` succeed it returns a table in
which each of the twenty-five function-pointer members is non-null, and the
`tcp_connect` pointer (and the table pointer itself) is non-null too. -/
theorem intialize_tcp_all_nonnull (P : Platform) (env : Env) (w : World)
    (h1 : isNull (malloc env w (sizeofTCP P)).1 = false)
    (h2 : isNull (malloc env (malloc env w (sizeofTCP P)).2 P.sizeofConnInfo).1 = false) :
    ∃ r, intialize_tcp P env w = some r ∧
      (∀ fld : Field, r.table.get fld ≠ none) ∧
      isNull r.table.tcp_connect = false ∧ isNull r.tcp = false := by
  refine ⟨_, by simp only [intialize_tcp, h1]; rfl, ?_, h2, h1⟩
  intro fld
  cases fld <;> simp [TCP.get]

theorem intialize_tcp_all_nonnull_witness :
    ∃ r, intialize_tcp ilp32 sampleEnv emptyWorld = some r ∧
      (∀ fld : Field, r.table.get fld ≠ none) ∧
      isNull r.table.tcp_connect = false ∧ isNull r.tcp = false :=
  intialize_tcp_all_nonnull ilp32 sampleEnv emptyWorld (by decide) (by decide)

/-- C2: in the table `intialize_tcp` returns every member holds the address of
the wrapper the specification names for it, no wrapper sits in two members,
and a call through a member is the call of that wrapper. -/
theorem intialize_tcp_binds_named_wrappers (P : Platform) (env : Env) (w : World)
    (r : Initialised) (h : intialize_tcp P env w = some r) :
    (∀ fld : Field, r.table.get fld = some (specBinding fld)) ∧
    Function.Injective specBinding ∧
    ∀ (env1 : Env) (fld : Field) (a : Args) (m : Machine), m.tcp = r.table →
      callThrough P env1 fld a m =
        (runFn P env1 a m.conn m.world (specBinding fld)).map fun o =>
          (o.ret, { m with conn := o.conn, world := o.world }) := by
  have hget : ∀ fld : Field, r.table.get fld = some (specBinding fld) := by
    intro fld
    simp only [intialize_tcp] at h
    split at h
    · cases h
    · cases h
      cases fld <;> rfl
  refine ⟨hget, ?_, ?_⟩
  · intro x y hxy
    cases x <;> cases y <;> first | rfl | cases hxy
  · intro env1 fld a m hm
    simp [callThrough, hm, hget fld]

theorem intialize_tcp_binds_named_wrappers_witness :
    ∃ r, intialize_tcp ilp32 sampleEnv emptyWorld = some r ∧
      (∀ fld : Field, r.table.get fld = some (specBinding fld)) ∧
      Function.Injective specBinding ∧
      ∀ (env1 : Env) (fld : Field) (a : Args) (m : Machine), m.tcp = r.table →
        callThrough ilp32 env1 fld a m =
          (runFn ilp32 env1 a m.conn m.world (specBinding fld)).map fun o =>
            (o.ret, { m with conn := o.conn, world := o.world }) :=
  ⟨_, rfl, intialize_tcp_binds_named_wrappers ilp32 sampleEnv emptyWorld _ rfl⟩

/-! ## Blocking and NOWAIT members (C3) -/

/-- C3 as stated fails: the table `intialize_tcp` builds has no NOWAIT member
for listen and none for close. -/
theorem table_lacks_nowait_listen_and_close :
    ∃ r, intialize_tcp ilp32 sampleEnv emptyWorld = some r ∧
      r.table.hasMember SockOp.listen true = false ∧
      r.table.hasMember SockOp.close true = false :=
  ⟨_, rfl, by decide, by decide⟩

/-- C3 amended: in the table `intialize_tcp` builds each of the nine operations
has a blocking member, and it has a NOWAIT member exactly when it is neither
listen nor close. -/
theorem table_blocking_and_nowait_members (P : Platform) (env : Env) (w : World)
    (r : Initialised) (h : intialize_tcp P env w = some r) (op : SockOp) :
    r.table.hasMember op false = true ∧
    (r.table.hasMember op true = true ↔ op ≠ SockOp.listen ∧ op ≠ SockOp.close) := by
  simp only [intialize_tcp] at h
  split at h
  · cases h
  · cases h
    cases op <;> simp [TCP.hasMember, Field.all, TCP.get, FnId.operation, FnId.nowait]

theorem table_blocking_and_nowait_members_witness :
    ∃ r, intialize_tcp ilp32 sampleEnv emptyWorld = some r ∧
      r.table.hasMember SockOp.accept false = true ∧
      (r.table.hasMember SockOp.accept true = true ↔
        SockOp.accept ≠ SockOp.listen ∧ SockOp.accept ≠ SockOp.close) :=
  ⟨_, rfl, table_blocking_and_nowait_members ilp32 sampleEnv emptyWorld _ rfl SockOp.accept⟩

/-! ## Bookkeeping on the connection (C5, C6) -/

/-- C5: for a connection whose `sockaddr` and `sock` are each null or a live
heap block (two different blocks), `Clean_Conn_Info` returns, and afterwards
both pointers are null, `queue_len`, `flags`, `sockaddr_len` and `tag` are
zero, and `ipaddr`, `port`, `process_name`, `sock_shutdown_how` and
`timeout_opts` are what they were. -/
theorem Clean_Conn_Info_resets (P : Platform) (c : TCP_CONNECTION_INFO) (w : World)
    (hsa : isNull c.sockaddr = true ∨ live w c.sockaddr = true)
    (hsk : isNull c.sock = true ∨ (live w c.sock = true ∧ c.sock ≠ c.sockaddr)) :
    ∃ o, Clean_Conn_Info P c w = some o ∧
      isNull o.conn.sockaddr = true ∧ isNull o.conn.sock = true ∧
      o.conn.queue_len = 0 ∧ o.conn.flags = 0 ∧ o.conn.sockaddr_len = 0 ∧ o.conn.tag = 0 ∧
      o.conn.ipaddr = c.ipaddr ∧ o.conn.port = c.port ∧
      o.conn.process_name = c.process_name ∧
      o.conn.sock_shutdown_how = c.sock_shutdown_how ∧
      o.conn.timeout_opts = c.timeout_opts := by
  cases hA : isNull c.sockaddr <;> cases hK : isNull c.sock
  · -- both are freed
    have hl : live w c.sockaddr = true := by
      cases hsa with
      | inl h => rw [hA] at h; cases h
      | inr h => exact h
    obtain ⟨hlk, hne⟩ : live w c.sock = true ∧ c.sock ≠ c.sockaddr := by
      cases hsk with
      | inl h => rw [hK] at h; cases h
      | inr h => exact h
    obtain ⟨b1, hb1⟩ := Option.isSome_iff_exists.mp hl
    obtain ⟨b2, hb2⟩ := Option.isSome_iff_exists.mp hlk
    have hb2r : (w.heap.release c.sockaddr).lookup c.sock = some b2 := by
      rw [lookup_release_ne w.heap hne]; exact hb2
    simp [Clean_Conn_Info, hA, hK, free, hb1, hb2r, isNull_nullPtr]
  · have hl : live w c.sockaddr = true := by
      cases hsa with
      | inl h => rw [hA] at h; cases h
      | inr h => exact h
    obtain ⟨b1, hb1⟩ := Option.isSome_iff_exists.mp hl
    simp [Clean_Conn_Info, hA, hK, free, hb1, isNull_nullPtr]
  · obtain ⟨hlk, -⟩ : live w c.sock = true ∧ c.sock ≠ c.sockaddr := by
      cases hsk with
      | inl h => rw [hK] at h; cases h
      | inr h => exact h
    obtain ⟨b2, hb2⟩ := Option.isSome_iff_exists.mp hlk
    simp [Clean_Conn_Info, hA, hK, free, hb2, isNull_nullPtr]
  · simp [Clean_Conn_Info, hA, hK]

theorem Clean_Conn_Info_fields_of_some (P : Platform) (c : TCP_CONNECTION_INFO) (w : World)
    (o : Outcome) (h : Clean_Conn_Info P c w = some o) :
    isNull o.conn.sockaddr = true ∧ isNull o.conn.sock = true ∧
      o.conn.queue_len = 0 ∧ o.conn.flags = 0 ∧ o.conn.sockaddr_len = 0 ∧ o.conn.tag = 0 ∧
      o.conn.ipaddr = c.ipaddr ∧ o.conn.port = c.port ∧
      o.conn.process_name = c.process_name ∧
      o.conn.sock_shutdown_how = c.sock_shutdown_how ∧
      o.conn.timeout_opts = c.timeout_opts := by
  simp only [Clean_Conn_Info, Option.bind_eq_some, Option.some.injEq] at h
  obtain ⟨s1, h1, s2, h2, rfl⟩ := h
  have e1 : isNull s1.1.sockaddr = true ∧ s1.1.sock = c.sock ∧ s1.1.ipaddr = c.ipaddr ∧
      s1.1.port = c.port ∧ s1.1.process_name = c.process_name ∧
      s1.1.sock_shutdown_how = c.sock_shutdown_how ∧ s1.1.timeout_opts = c.timeout_opts := by
    split at h1
    · rename_i hA
      cases h1
      exact ⟨hA, rfl, rfl, rfl, rfl, rfl, rfl⟩
    · simp only [Option.map_eq_some'] at h1
      obtain ⟨w1, -, rfl⟩ := h1
      exact ⟨isNull_nullPtr P, rfl, rfl, rfl, rfl, rfl, rfl⟩
  have e2 : isNull s2.1.sock = true ∧ s2.1.sockaddr = s1.1.sockaddr ∧ s2.1.ipaddr = s1.1.ipaddr ∧
      s2.1.port = s1.1.port ∧ s2.1.process_name = s1.1.process_name ∧
      s2.1.sock_shutdown_how = s1.1.sock_shutdown_how ∧
      s2.1.timeout_opts = s1.1.timeout_opts := by
    split at h2
    · rename_i hK
      cases h2
      exact ⟨hK, rfl, rfl, rfl, rfl, rfl, rfl⟩
    · simp only [Option.map_eq_some'] at h2
      obtain ⟨w2, -, rfl⟩ := h2
      exact ⟨isNull_nullPtr P, rfl, rfl, rfl, rfl, rfl, rfl⟩
  obtain ⟨a1, -, a3, a4, a5, a6, a7⟩ := e1
  obtain ⟨b1, b2, b3, b4, b5, b6, b7⟩ := e2
  refine ⟨?_, b1, rfl, rfl, rfl, rfl, ?_, ?_, ?_, ?_, ?_⟩
  · show isNull s2.1.sockaddr = true
    rw [b2]; exact a1
  · show s2.1.ipaddr = c.ipaddr
    rw [b3, a3]
  · show s2.1.port = c.port
    rw [b4, a4]
  · show s2.1.process_name = c.process_name
    rw [b5, a5]
  · show s2.1.sock_shutdown_how = c.sock_shutdown_how
    rw [b6, a6]
  · show s2.1.timeout_opts = c.timeout_opts
    rw [b7, a7]

theorem Clean_Conn_Info_resets_witness :
    ∃ o, Clean_Conn_Info ilp32 (sampleConn [16, 0, 0, 1] [32, 0, 0, 1])
        { heap := [([16, 0, 0, 1], [5, 0, 0, 0]), ([32, 0, 0, 1], List.replicate 16 0)],
          calls := [] } = some o ∧
      isNull o.conn.sockaddr = true ∧ isNull o.conn.sock = true ∧
      o.conn.queue_len = 0 ∧ o.conn.flags = 0 ∧ o.conn.sockaddr_len = 0 ∧ o.conn.tag = 0 ∧
      o.conn.ipaddr = (sampleConn [16, 0, 0, 1] [32, 0, 0, 1]).ipaddr ∧
      o.conn.port = (sampleConn [16, 0, 0, 1] [32, 0, 0, 1]).port ∧
      o.conn.process_name = (sampleConn [16, 0, 0, 1] [32, 0, 0, 1]).process_name ∧
      o.conn.sock_shutdown_how = (sampleConn [16, 0, 0, 1] [32, 0, 0, 1]).sock_shutdown_how ∧
      o.conn.timeout_opts = (sampleConn [16, 0, 0, 1] [32, 0, 0, 1]).timeout_opts :=
  Clean_Conn_Info_resets ilp32 (sampleConn [16, 0, 0, 1] [32, 0, 0, 1]) _
    (Or.inr (by decide)) (Or.inr ⟨by decide, by decide⟩)

/-- C6: `Tcp_Set_Options` returns, with `flags`, `queue_len` and
`sockaddr_len` equal to the three arguments in that order and every other
member of the connection, and the world, as before. -/
theorem Tcp_Set_Options_stores_arguments (flags queue_length sockaddr_len : Int)
    (c : TCP_CONNECTION_INFO) (w : World) :
    ∃ o, Tcp_Set_Options flags queue_length sockaddr_len c w = some o ∧
      o.conn.flags = flags ∧ o.conn.queue_len = queue_length ∧
      o.conn.sockaddr_len = sockaddr_len ∧
      o.conn.ipaddr = c.ipaddr ∧ o.conn.port = c.port ∧
      o.conn.process_name = c.process_name ∧ o.conn.sock = c.sock ∧ o.conn.tag = c.tag ∧
      o.conn.sockaddr = c.sockaddr ∧ o.conn.sock_shutdown_how = c.sock_shutdown_how ∧
      o.conn.timeout_opts = c.timeout_opts ∧ o.world = w :=
  ⟨_, rfl, rfl, rfl, rfl, rfl, rfl, rfl, rfl, rfl, rfl, rfl, rfl, rfl⟩

/-! ## The address structure (C7) -/

theorem lookup_after_malloc (env : Env) (w : World) (n : Nat)
    (h : isNull (malloc env w n).1 = false) :
    (malloc env w n).2.heap.lookup (malloc env w n).1 = some (fitTo n (env.mallocJunk w.heap n)) := by
  have hp : isNull (env.mallocPtr w.heap n) = false := by
    unfold malloc at h
    by_cases hn : isNull (env.mallocPtr w.heap n) = true
    · simp [hn] at h
    · simpa using hn
  simp [malloc, hp, List.lookup]

/-- C7 fails on the code: `Set_SockAddr` allocates `sizeof(connection->sockaddr)`
bytes, the size of a pointer, and then clears `sizeof(*connection->sockaddr)`
bytes of that block; wherever a pointer is smaller than `struct sockaddr_in`
the store runs past the end of the block (or goes through the null pointer
when `malloc` failed), so the call has no defined result. -/
theorem Set_SockAddr_writes_past_block (P : Platform) (env : Env) (address_family : Int)
    (c : TCP_CONNECTION_INFO) (w : World) (hsz : P.sizeofPtr < P.sizeofSockaddrIn) :
    Set_SockAddr P env address_family c w = none := by
  have hw : writeAt (malloc env w P.sizeofPtr).2 (malloc env w P.sizeofPtr).1 0
      (List.replicate P.sizeofSockaddrIn 0) = none := by
    cases hn : isNull (malloc env w P.sizeofPtr).1
    · have hl := lookup_after_malloc env w P.sizeofPtr hn
      simp [writeAt, hn, hl, fitTo_length, Nat.not_le.mpr hsz]
    · simp [writeAt, hn]
  simp [Set_SockAddr, hw]

theorem Set_SockAddr_writes_past_block_witness :
    Set_SockAddr ilp32 sampleEnv 2 (sampleConn [] []) emptyWorld = none ∧
    Set_SockAddr lp64 sampleEnv64 2 (sampleConn [] []) emptyWorld = none :=
  ⟨Set_SockAddr_writes_past_block ilp32 sampleEnv 2 _ _ (by decide),
   Set_SockAddr_writes_past_block lp64 sampleEnv64 2 _ _ (by decide)⟩

/-! ## Creating and using the socket (C8, C9) -/

/-- C8: `Create_Socket` returns, its value is the value the call
`socket(address_family, socket_type, protocol)` returned, whatever its sign,
and that call is the one platform call it adds to the log. -/
theorem Create_Socket_returns_socket_value (P : Platform) (env : Env)
    (address_family socket_type protocol : Int) (c : TCP_CONNECTION_INFO) (w : World) :
    ∃ o, Create_Socket P env address_family socket_type protocol c w = some o ∧
      o.ret = Ret.value (env.ret w.calls (SysCall.socket address_family socket_type protocol)) ∧
      o.world.calls = w.calls ++ [SysCall.socket address_family socket_type protocol] := by
  refine ⟨_, rfl, ?_, ?_⟩
  · simp [World.call, malloc_calls]
  · simp [World.call, malloc_calls]

theorem Create_Socket_leaves_block_unwritten (P : Platform) (env : Env)
    (address_family socket_type protocol : Int) (c : TCP_CONNECTION_INFO) (w : World)
    (o : Outcome) (h : Create_Socket P env address_family socket_type protocol c w = some o)
    (hn : isNull o.conn.sock = false) :
    readInt P o.world o.conn.sock =
      some (P.intOfBytes (fitTo P.sizeofInt (env.mallocJunk w.heap P.sizeofInt))) := by
  simp only [Create_Socket, Option.some.injEq] at h
  subst h
  have hl := lookup_after_malloc env w P.sizeofInt hn
  have hn1 : isNull (malloc env w P.sizeofInt).1 = false := hn
  have ht : List.take P.sizeofInt (fitTo P.sizeofInt (env.mallocJunk w.heap P.sizeofInt)) =
      fitTo P.sizeofInt (env.mallocJunk w.heap P.sizeofInt) :=
    List.take_of_length_le (by rw [fitTo_length])
  simp [readInt, World.call, hn1, hl, fitTo_length, ht]

/-- C9 fails on the code: `Create_Socket` returns the descriptor 3 to its
caller and points `connection->sock` at a fresh block it never writes; the
block holds 7 here, and `Make_Connect` on the same connection calls `connect`
on 7. -/
theorem Make_Connect_after_Create_Socket_other_descriptor :
    (Create_Socket ilp32 sampleEnv 2 1 0 (sampleConn [0, 0, 0, 0] [0, 9, 0, 1])
        { heap := [([0, 9, 0, 1], List.replicate 16 0)], calls := [] }).bind
      (fun o => (Make_Connect ilp32 sampleEnv o.conn o.world).map
        (fun o2 => (o.ret, o2.world.calls))) =
    some (Ret.value 3,
      [SysCall.socket 2 1 0, SysCall.connect 7 (Addr.val [0, 9, 0, 1]) 16]) := by
  decide

/-! ## Closing the socket (C10) -/

theorem isNull_zeroFirst_of_length_le (n : Nat) (bs : Bytes) (h : bs.length ≤ n) :
    isNull (zeroFirst n bs) = true := by
  simp [isNull, zeroFirst, List.drop_of_length_le h]

theorem Close_Sock_returns_close_status (P : Platform) (env : Env) (c : TCP_CONNECTION_INFO)
    (w : World) (fd : Int) (hn : isNull c.sock = false) (hr : readInt P w c.sock = some fd) :
    ∃ o, Close_Sock P env c w = some o ∧
      o.ret = Ret.value (env.ret w.calls (SysCall.FILE_CLOSE_ (toShort fd))) ∧
      o.conn.sock = zeroFirst P.sizeofInt c.sock := by
  refine ⟨_, by simp only [Close_Sock, hn, hr]; rfl, rfl, rfl⟩

theorem Close_Sock_nulls_narrow_pointer (P : Platform) (env : Env) (c : TCP_CONNECTION_INFO)
    (w : World) (fd : Int) (hn : isNull c.sock = false) (hr : readInt P w c.sock = some fd)
    (hsz : c.sock.length ≤ P.sizeofInt) :
    ∃ o, Close_Sock P env c w = some o ∧
      o.ret = Ret.value (env.ret w.calls (SysCall.FILE_CLOSE_ (toShort fd))) ∧
      isNull o.conn.sock = true := by
  obtain ⟨o, ho, hret, hs⟩ := Close_Sock_returns_close_status P env c w fd hn hr
  exact ⟨o, ho, hret, by rw [hs]; exact isNull_zeroFirst_of_length_le _ _ hsz⟩

theorem Close_Sock_null_is_undefined (P : Platform) (env : Env) (c : TCP_CONNECTION_INFO)
    (w : World) (hn : isNull c.sock = true) : Close_Sock P env c w = none := by
  simp [Close_Sock, hn, writeAt]

/-- C10 fails on the code where a pointer is wider than an `int`: with
eight-byte pointers `Close_Sock` returns the status of `FILE_CLOSE_` but its
`memset` of `sizeof(*connection->sock)` bytes clears only the first four bytes
of `connection->sock`, which stays non-null. -/
theorem Close_Sock_leaves_wide_pointer_nonnull :
    ∃ o, Close_Sock lp64 sampleEnv64 (sampleConn [16, 0, 0, 0, 1, 0, 0, 0] (nullPtr lp64))
        { heap := [([16, 0, 0, 0, 1, 0, 0, 0], [5, 0, 0, 0])], calls := [] } = some o ∧
      o.ret = Ret.value (sampleEnv64.ret [] (SysCall.FILE_CLOSE_ 5)) ∧
      o.world.calls = [SysCall.FILE_CLOSE_ 5] ∧
      o.conn.sock = [0, 0, 0, 0, 1, 0, 0, 0] ∧ isNull o.conn.sock = false :=
  ⟨_, rfl, by decide, by decide, by decide, by decide⟩

/-! ## Forwarding to the platform (C11) -/

theorem runFn_forwarding_of_some (P : Platform) (env : Env) (a : Args)
    (c : TCP_CONNECTION_INFO) (w : World) (f : FnId) (o : Outcome)
    (h : runFn P env a c w f = some o) :
    ∃ new : List SysCall, o.world.calls = w.calls ++ new ∧ new.length = f.callCount ∧
      (f.returnsResult = true →
        ∃ call, new = [call] ∧ o.ret = Ret.value (env.ret w.calls call)) ∧
      (f.isVoid = true → o.ret = Ret.void) := by
  cases f
  case Set_SockAddr =>
    simp only [runFn, Set_SockAddr, Option.bind_eq_some, Option.some.injEq] at h
    obtain ⟨w2, h2, w3, h3, w4, h4, w5, h5, w6, h6, rfl⟩ := h
    refine ⟨[], ?_, rfl, by simp [FnId.returnsResult], fun _ => rfl⟩
    simp [writeAt_calls h6, writeAt_calls h5, writeAt_calls h4, writeAt_calls h3,
      writeAt_calls h2, malloc_calls]
  case Clean_Conn_Info =>
    simp only [runFn, Clean_Conn_Info, Option.bind_eq_some, Option.some.injEq] at h
    obtain ⟨s1, h1, s2, h2, rfl⟩ := h
    refine ⟨[], ?_, rfl, by simp [FnId.returnsResult], fun _ => rfl⟩
    have e1 : s1.2.calls = w.calls := by
      split at h1
      · cases h1; rfl
      · simp only [Option.map_eq_some'] at h1
        obtain ⟨w1, hw1, rfl⟩ := h1
        exact free_calls hw1
    have e2 : s2.2.calls = s1.2.calls := by
      split at h2
      · cases h2; rfl
      · simp only [Option.map_eq_some'] at h2
        obtain ⟨w1, hw1, rfl⟩ := h2
        exact free_calls hw1
    simp [e1, e2]
  case Close_Sock =>
    simp only [runFn, Close_Sock] at h
    split at h
    · rename_i hn
      simp [writeAt, hn] at h
    · simp only [Option.bind_eq_some, Option.some.injEq] at h
      obtain ⟨fd, -, rfl⟩ := h
      exact ⟨[_], rfl, rfl, fun _ => ⟨_, rfl, rfl⟩, by simp [FnId.isVoid]⟩
  case Create_Socket =>
    simp only [runFn, Create_Socket, Option.some.injEq] at h
    subst h
    refine ⟨[SysCall.socket a.address_family a.socket_type a.protocol], ?_, rfl,
      fun _ => ⟨_, rfl, ?_⟩, by simp [FnId.isVoid]⟩
    · simp [World.call, malloc_calls]
    · simp [World.call, malloc_calls]
  case Make_Connect =>
    simp only [runFn, Make_Connect, Option.bind_eq_some, Option.some.injEq] at h
    obtain ⟨w1, h1, fd, -, rfl⟩ := h
    refine ⟨[SysCall.connect fd (Addr.val c.sockaddr) P.sizeofSockaddrIn], ?_, rfl,
      fun _ => ⟨_, rfl, ?_⟩, by simp [FnId.isVoid]⟩
    · simp [World.call, writeAt_calls h1]
    · simp [World.call, writeAt_calls h1]
  case Make_Connect_NW =>
    simp only [runFn, Make_Connect_NW, Option.bind_eq_some, Option.some.injEq] at h
    obtain ⟨w1, h1, fd, -, rfl⟩ := h
    refine ⟨[SysCall.connect_nw fd Addr.ofSockaddrMember c.sockaddr_len (Addr.ofTagParam a.tag)],
      ?_, rfl, fun _ => ⟨_, rfl, ?_⟩, by simp [FnId.isVoid]⟩
    · simp [World.call, writeAt_calls h1]
    · simp [World.call, writeAt_calls h1]
  case Tcp_Set_Options =>
    simp only [runFn, Tcp_Set_Options, Option.some.injEq] at h
    subst h
    exact ⟨[], by simp, rfl, by simp [FnId.returnsResult], fun _ => rfl⟩
  case Set_Inet_Name =>
    simp only [runFn, Set_Inet_Name, Option.some.injEq] at h
    subst h
    exact ⟨[_], rfl, rfl, by simp [FnId.returnsResult], fun _ => rfl⟩
  case Get_Sock_NW =>
    simp only [runFn, Get_Sock_NW, Option.some.injEq] at h
    subst h
    exact ⟨[_], rfl, rfl, fun _ => ⟨_, rfl, rfl⟩, by simp [FnId.isVoid]⟩
  case New_Recv =>
    simp only [runFn, New_Recv, Option.bind_eq_some, Option.some.injEq] at h
    obtain ⟨fd, -, rfl⟩ := h
    exact ⟨[_], rfl, rfl, by simp [FnId.returnsResult], by simp [FnId.isVoid]⟩
  case New_Recv_NW =>
    simp only [runFn, New_Recv_NW, Option.bind_eq_some, Option.some.injEq] at h
    obtain ⟨fd, -, rfl⟩ := h
    exact ⟨[_], rfl, rfl, by simp [FnId.returnsResult], by simp [FnId.isVoid]⟩
  all_goals
    simp only [runFn, Set_Bind, Set_Bind_NW, Set_Listen, New_Accept, New_Accept_NW,
      New_Accept_NW1, New_Accept_NW2, New_Accept_NW3, New_Send, New_Send_NW,
      Shutdown_Sock, Shutdown_Sock_NW, Get_Sock_Name, Get_Sock_Name_NW,
      Option.bind_eq_some, Option.some.injEq] at h
    obtain ⟨fd, -, rfl⟩ := h
    exact ⟨[_], rfl, rfl, fun _ => ⟨_, rfl, rfl⟩, by simp [FnId.isVoid]⟩

theorem runFn_isSome_of_bodyDefined (P : Platform) (env : Env) (a : Args)
    (c : TCP_CONNECTION_INFO) (w : World) (f : FnId) (hd : bodyDefined P c w f = true) :
    ∃ o, runFn P env a c w f = some o := by
  cases f
  case Set_SockAddr => simp [bodyDefined] at hd
  case Set_Inet_Name => exact ⟨_, rfl⟩
  case Create_Socket => exact ⟨_, rfl⟩
  case Get_Sock_NW => exact ⟨_, rfl⟩
  case Tcp_Set_Options => exact ⟨_, rfl⟩
  case Make_Connect =>
    simp only [bodyDefined] at hd
    split at hd
    · rename_i w1 hw
      obtain ⟨fd, hfd⟩ := Option.isSome_iff_exists.mp hd
      simp [runFn, Make_Connect, hw, hfd]
    · cases hd
  case Make_Connect_NW =>
    simp only [bodyDefined] at hd
    split at hd
    · rename_i w1 hw
      obtain ⟨fd, hfd⟩ := Option.isSome_iff_exists.mp hd
      simp [runFn, Make_Connect_NW, hw, hfd]
    · cases hd
  case Close_Sock =>
    obtain ⟨fd, hfd⟩ := Option.isSome_iff_exists.mp hd
    have hn : isNull c.sock = false := by
      cases hz : isNull c.sock
      · rfl
      · simp [readInt, hz] at hfd
    exact ⟨_, by simp only [runFn, Close_Sock, hn, hfd]; rfl⟩
  case Clean_Conn_Info =>
    simp only [bodyDefined, Bool.and_eq_true, Bool.or_eq_true, Bool.not_eq_true',
      beq_eq_false_iff_ne, ne_eq] at hd
    obtain ⟨hsa, hsk⟩ := hd
    cases hA : isNull c.sockaddr <;> cases hK : isNull c.sock
    · have hl : live w c.sockaddr = true := by simpa [hA] using hsa
      have hk2 : live w c.sock = true ∧ ¬ c.sock = c.sockaddr := by simpa [hA, hK] using hsk
      obtain ⟨b1, hb1⟩ := Option.isSome_iff_exists.mp hl
      obtain ⟨b2, hb2⟩ := Option.isSome_iff_exists.mp hk2.1
      have hb2r : (w.heap.release c.sockaddr).lookup c.sock = some b2 := by
        rw [lookup_release_ne w.heap hk2.2]; exact hb2
      simp [runFn, Clean_Conn_Info, hA, hK, free, hb1, hb2r]
    · have hl : live w c.sockaddr = true := by simpa [hA] using hsa
      obtain ⟨b1, hb1⟩ := Option.isSome_iff_exists.mp hl
      simp [runFn, Clean_Conn_Info, hA, hK, free, hb1]
    · have hk2 : live w c.sock = true := by
        have := hsk
        simp [hA, hK] at this
        exact this
      obtain ⟨b2, hb2⟩ := Option.isSome_iff_exists.mp hk2
      simp [runFn, Clean_Conn_Info, hA, hK, free, hb2]
    · simp [runFn, Clean_Conn_Info, hA, hK]
  all_goals
    obtain ⟨fd, hfd⟩ := Option.isSome_iff_exists.mp hd
    exact ⟨_, by
      simp only [runFn, Set_Bind, Set_Bind_NW, Set_Listen, New_Accept, New_Accept_NW,
        New_Accept_NW1, New_Accept_NW2, New_Accept_NW3, New_Send, New_Send_NW, New_Recv,
        New_Recv_NW, Shutdown_Sock, Shutdown_Sock_NW, Get_Sock_Name, Get_Sock_Name_NW, hfd]
      rfl⟩

/-- C11 as stated fails: called through the table that `intialize_tcp` builds,
`set_options` and `clean_conn_info` make no platform call at all, and
`new_recv`, whose `recv` answered 0, hands back no value. -/
theorem table_operations_not_all_forwards :
    sampleMachine.bind (fun m =>
        (callThrough ilp32 sampleEnv Field.set_options sampleArgs m).map
          (fun r => (r.1, r.2.world.calls))) = some (Ret.void, []) ∧
    sampleMachine.bind (fun m =>
        (callThrough ilp32 sampleEnv Field.clean_conn_info sampleArgs m).map
          (fun r => (r.1, r.2.world.calls))) = some (Ret.void, []) ∧
    sampleMachine.bind (fun m =>
        (callThrough ilp32 sampleEnv Field.new_recv sampleArgs m).map
          (fun r => (r.1, r.2.world.calls))) =
      some (Ret.indeterminate, [SysCall.recv 5 (Addr.val [0, 5, 0, 1]) 64 0]) ∧
    sampleEnv.ret [] (SysCall.recv 5 (Addr.val [0, 5, 0, 1]) 64 0) = 0 := by
  refine ⟨by decide, by decide, by decide, by decide⟩

/-- C11 amended: a call through a member bound to its wrapper, in a state where
the memory the wrapper touches is usable, returns; `Clean_Conn_Info` and
`Tcp_Set_Options` make no platform call, every other wrapper makes exactly
one; the wrappers that `FnId.returnsResult` lists (all but `Set_Inet_Name`,
`New_Recv`, `New_Recv_NW` and the two above) return the value that one call
returned, and the `void` wrappers return nothing.  `Set_SockAddr` is not
covered, nor is `Close_Sock` on a null `sock`. -/
theorem table_operations_forwarding (P : Platform) (env : Env) (fld : Field) (a : Args)
    (m : Machine) (ht : m.tcp.get fld = some (specBinding fld))
    (hd : bodyDefined P m.conn m.world (specBinding fld) = true) :
    ∃ r, callThrough P env fld a m = some r ∧
      ∃ new : List SysCall, r.2.world.calls = m.world.calls ++ new ∧
        new.length = (specBinding fld).callCount ∧
        ((specBinding fld).returnsResult = true →
          ∃ call, new = [call] ∧ r.1 = Ret.value (env.ret m.world.calls call)) ∧
        ((specBinding fld).isVoid = true → r.1 = Ret.void) := by
  obtain ⟨o, ho⟩ := runFn_isSome_of_bodyDefined P env a m.conn m.world (specBinding fld) hd
  refine ⟨(o.ret, { m with conn := o.conn, world := o.world }), ?_, ?_⟩
  · simp [callThrough, ht, ho]
  · exact runFn_forwarding_of_some P env a m.conn m.world (specBinding fld) o ho

theorem table_operations_forwarding_witness :
    ∃ r0, intialize_tcp ilp32 sampleEnv emptyWorld = some r0 ∧
      ∃ r, callThrough ilp32 sampleEnv Field.set_listen sampleArgs
          { tcp := r0.table, conn := sampleConn [16, 0, 0, 1] [32, 0, 0, 1],
            world := sampleWorld } = some r ∧
        ∃ new : List SysCall, r.2.world.calls = sampleWorld.calls ++ new ∧
          new.length = (specBinding Field.set_listen).callCount ∧
          ((specBinding Field.set_listen).returnsResult = true →
            ∃ call, new = [call] ∧ r.1 = Ret.value (sampleEnv.ret sampleWorld.calls call)) ∧
          ((specBinding Field.set_listen).isVoid = true → r.1 = Ret.void) := by
  refine ⟨_, rfl, ?_⟩
  exact table_operations_forwarding ilp32 sampleEnv Field.set_listen sampleArgs
    { tcp := _, conn := sampleConn [16, 0, 0, 1] [32, 0, 0, 1], world := sampleWorld }
    rfl (by decide)

/-! ## The tag of a NOWAIT call (C12) -/

theorem runFn_tag_of_some (P : Platform) (env : Env) (a : Args)
    (c : TCP_CONNECTION_INFO) (w : World) (f : FnId) (o : Outcome)
    (hf : f.takesTag = true) (h : runFn P env a c w f = some o) :
    ∃ call, o.world.calls = w.calls ++ [call] ∧
      call.tag = some (Addr.ofTagParam a.tag) := by
  cases f
  case Make_Connect_NW =>
    simp only [runFn, Make_Connect_NW, Option.bind_eq_some, Option.some.injEq] at h
    obtain ⟨w1, h1, fd, -, rfl⟩ := h
    refine ⟨SysCall.connect_nw fd Addr.ofSockaddrMember c.sockaddr_len (Addr.ofTagParam a.tag),
      ?_, rfl⟩
    simp [World.call, writeAt_calls h1]
  case Set_Bind_NW | New_Accept_NW | New_Accept_NW1 | New_Accept_NW2 | New_Accept_NW3
      | New_Send_NW | New_Recv_NW | Shutdown_Sock_NW | Get_Sock_Name_NW =>
    simp only [runFn, Set_Bind_NW, New_Accept_NW, New_Accept_NW1, New_Accept_NW2,
      New_Accept_NW3, New_Send_NW, New_Recv_NW, Shutdown_Sock_NW, Get_Sock_Name_NW,
      Option.bind_eq_some, Option.some.injEq] at h
    obtain ⟨fd, -, rfl⟩ := h
    exact ⟨_, rfl, rfl⟩
  all_goals simp [FnId.takesTag] at hf

/-- C12 fails on the code: each of the ten wrappers with a `tag` parameter,
whenever its memory accesses are defined, makes one NOWAIT call whose tag
argument is `&tag`, the address of the wrapper's own parameter, and not the
pointer the caller supplied. -/
theorem nowait_wrappers_pass_address_of_parameter (P : Platform) (env : Env) (a : Args)
    (c : TCP_CONNECTION_INFO) (w : World) (f : FnId) (hf : f.takesTag = true)
    (hd : bodyDefined P c w f = true) :
    ∃ o call, runFn P env a c w f = some o ∧ o.world.calls = w.calls ++ [call] ∧
      call.tag = some (Addr.ofTagParam a.tag) ∧ call.tag ≠ some (Addr.val a.tag) := by
  obtain ⟨o, ho⟩ := runFn_isSome_of_bodyDefined P env a c w f hd
  obtain ⟨call, hc, ht⟩ := runFn_tag_of_some P env a c w f o hf ho
  refine ⟨o, call, ho, hc, ht, ?_⟩
  rw [ht]
  intro hcontra
  cases hcontra

theorem nowait_wrappers_pass_address_of_parameter_witness :
    ∃ o call, runFn ilp32 sampleEnv sampleArgs (sampleConn [16, 0, 0, 1] [32, 0, 0, 1])
        sampleWorld FnId.Set_Bind_NW = some o ∧
      o.world.calls = sampleWorld.calls ++ [call] ∧
      call.tag = some (Addr.ofTagParam sampleArgs.tag) ∧
      call.tag ≠ some (Addr.val sampleArgs.tag) :=
  nowait_wrappers_pass_address_of_parameter ilp32 sampleEnv sampleArgs
    (sampleConn [16, 0, 0, 1] [32, 0, 0, 1]) sampleWorld FnId.Set_Bind_NW (by decide) (by decide)

/-! ## Stored options reach the platform calls (C13) -/

/-- C13: when `*c.sock` can be read and holds `fd`, after
`Tcp_Set_Options(c, flags, queue_length, sockaddr_len)` the wrapper
`Set_Listen` calls `listen(fd, queue_length)`, `New_Send` calls `send` and
`New_Recv` calls `recv` on `fd` with `flags`, and `Set_Bind` calls `bind` on
`fd` with length `sockaddr_len`; `Set_Listen`, `New_Send` and `Set_Bind`
return the value their call returned. -/
theorem stored_options_are_forwarded (P : Platform) (env : Env)
    (flags queue_length sockaddr_len : Int) (c : TCP_CONNECTION_INFO) (w : World)
    (buffer_ptr : Ptr) (buffer_length nrcvd fd : Int) (hr : readInt P w c.sock = some fd) :
    ∃ o0, Tcp_Set_Options flags queue_length sockaddr_len c w = some o0 ∧
      (∃ o, Set_Listen P env o0.conn o0.world = some o ∧
        o.world.calls = w.calls ++ [SysCall.listen fd queue_length] ∧
        o.ret = Ret.value (env.ret w.calls (SysCall.listen fd queue_length))) ∧
      (∃ o, New_Send P env buffer_ptr buffer_length o0.conn o0.world = some o ∧
        o.world.calls = w.calls ++ [SysCall.send fd (Addr.val buffer_ptr) buffer_length flags] ∧
        o.ret = Ret.value
          (env.ret w.calls (SysCall.send fd (Addr.val buffer_ptr) buffer_length flags))) ∧
      (∃ o, New_Recv P env buffer_ptr buffer_length nrcvd o0.conn o0.world = some o ∧
        o.world.calls =
          w.calls ++ [SysCall.recv fd (Addr.val buffer_ptr) buffer_length flags]) ∧
      (∃ o, Set_Bind P env o0.conn o0.world = some o ∧
        o.world.calls = w.calls ++ [SysCall.bind fd (Addr.val c.sockaddr) sockaddr_len] ∧
        o.ret = Ret.value
          (env.ret w.calls (SysCall.bind fd (Addr.val c.sockaddr) sockaddr_len))) := by
  have hr0 : readInt P w
      ({ c with flags := flags, queue_len := queue_length,
                sockaddr_len := sockaddr_len } : TCP_CONNECTION_INFO).sock = some fd := hr
  refine ⟨_, rfl, ?_, ?_, ?_, ?_⟩
  · simp [Set_Listen, hr0, World.call]
  · simp [New_Send, hr0, World.call]
  · simp [New_Recv, hr0, World.call]
  · simp [Set_Bind, hr0, World.call]

theorem stored_options_are_forwarded_witness :
    ∃ o0, Tcp_Set_Options 1 7 16 (sampleConn [16, 0, 0, 1] [32, 0, 0, 1]) sampleWorld = some o0 ∧
      (∃ o, Set_Listen ilp32 sampleEnv o0.conn o0.world = some o ∧
        o.world.calls = sampleWorld.calls ++ [SysCall.listen 5 7] ∧
        o.ret = Ret.value (sampleEnv.ret sampleWorld.calls (SysCall.listen 5 7))) ∧
      (∃ o, New_Send ilp32 sampleEnv [0, 5, 0, 1] 64 o0.conn o0.world = some o ∧
        o.world.calls = sampleWorld.calls ++ [SysCall.send 5 (Addr.val [0, 5, 0, 1]) 64 1] ∧
        o.ret = Ret.value
          (sampleEnv.ret sampleWorld.calls (SysCall.send 5 (Addr.val [0, 5, 0, 1]) 64 1))) ∧
      (∃ o, New_Recv ilp32 sampleEnv [0, 5, 0, 1] 64 0 o0.conn o0.world = some o ∧
        o.world.calls =
          sampleWorld.calls ++ [SysCall.recv 5 (Addr.val [0, 5, 0, 1]) 64 1]) ∧
      (∃ o, Set_Bind ilp32 sampleEnv o0.conn o0.world = some o ∧
        o.world.calls = sampleWorld.calls ++
          [SysCall.bind 5 (Addr.val (sampleConn [16, 0, 0, 1] [32, 0, 0, 1]).sockaddr) 16] ∧
        o.ret = Ret.value (sampleEnv.ret sampleWorld.calls
          (SysCall.bind 5 (Addr.val (sampleConn [16, 0, 0, 1] [32, 0, 0, 1]).sockaddr) 16))) :=
  stored_options_are_forwarded ilp32 sampleEnv 1 7 16 (sampleConn [16, 0, 0, 1] [32, 0, 0, 1])
    sampleWorld [0, 5, 0, 1] 64 0 5 (by decide)

/-! ## The table and the heap the wrappers work on (C4) -/

end NSCC
